import Mathlib

/-!
Verification of the Social-Media-Analysis repository's fetch/aggregate/persist
pipeline (`server/services/twitter_service.py` and `server/api/search_routes.py`).

The Python code is shallowly embedded:
* JSON scalar values become `JLeaf`; a raw tweet from the upstream API is an
  association list `RawTweet` of string keys to `JVal` values, where only the
  `user` key holds a (flat) object — the only nesting the code ever reads.
* `dict.get(k, default)` becomes association-list lookup with a default.
* Python `int(x)` on a scalar becomes the fallible `pyInt` (`none` models the
  `TypeError` or `ValueError` that `int(None)` or `int("x")` raises).
* Exceptions become `Option`/`Except` results.
* pandas DataFrames become `DF`: an explicit column list plus rows as
  association lists (a row cell missing from the association list plays the
  role of a missing cell).
* The filesystem becomes an association list from path strings to the parsed
  content of the JSON file last written there; `open(..., "w")`/`json.dump`
  prepends a binding (so the newest write shadows older ones) and reading is
  lookup.
* `round(x, 1)` becomes `pyRound1`, rational round-half-to-even at one
  decimal, matching CPython's banker's rounding.
-/

/-- A scalar JSON value (null, integer, or string) as found in the upstream
API's records.  Floats and booleans never reach the code paths verified here. -/
inductive JLeaf where
  | jnull : JLeaf
  | jint : Int → JLeaf
  | jstr : String → JLeaf
deriving DecidableEq, Repr

/-- A JSON value stored under a key of a raw tweet object: a scalar, or (for
the `user` key) a flat object of scalars — the only shape the service reads. -/
inductive JVal where
  | jnull : JVal
  | jint : Int → JVal
  | jstr : String → JVal
  | jobj : List (String × JLeaf) → JVal
deriving DecidableEq, Repr

/-- Injection of scalars into `JVal`. -/
def JLeaf.toJVal : JLeaf → JVal
  | .jnull => .jnull
  | .jint n => .jint n
  | .jstr s => .jstr s

/-- First-match association-list lookup, the embedding of Python `dict`
indexing (`d[k]` / `d.get(k)`); later bindings are shadowed by earlier ones. -/
def lookupKey {β : Type} (k : String) : List (String × β) → Option β
  | [] => none
  | (k', v) :: rest => if k' = k then some v else lookupKey k rest

/-- A raw tweet object as returned by the upstream API: a JSON object. -/
abbrev RawTweet : Type := List (String × JVal)

/-- `tweet.get(k, d)`: lookup with a default. -/
def jget (t : RawTweet) (k : String) (d : JVal) : JVal :=
  (lookupKey k t).getD d

/-- Python `int()` applied to a decimal digit string, over the character
list: `none` models the `ValueError` on a non-numeric string.  (Surrounding
whitespace and underscore separators, which CPython also accepts, are not
modelled; no claim depends on them.) -/
def digitsToNat : List Char → Option Nat
  | [] => none
  | cs => if cs.all Char.isDigit then
      some (cs.foldl (fun n c => n * 10 + (c.toNat - 48)) 0)
    else none

/-- Python `int()` on a string, with an optional sign. -/
def pyIntOfString (s : String) : Option Int :=
  match s.data with
  | '-' :: rest => (digitsToNat rest).map fun n => -(n : Int)
  | '+' :: rest => (digitsToNat rest).map fun n => (n : Int)
  | cs => (digitsToNat cs).map fun n => (n : Int)

/-- Python `int()` on a JSON scalar: integers pass through, numeric strings
are parsed, and `null` (a `TypeError`) or anything else fails. -/
def pyInt : JVal → Option Int
  | .jint n => some n
  | .jstr s => pyIntOfString s
  | _ => none

/-- The flat record `_process_tweet_data` builds from one raw tweet.  The
four count fields went through `int(...)` so they are integers; the remaining
fields hold whatever JSON value the raw tweet carried (or the default). -/
structure TweetRecord where
  id : JVal
  text : JVal
  timestamp : JVal
  favorite_count : Int
  retweet_count : Int
  reply_count : Int
  quote_count : Int
  views : JVal
  user_followers : JLeaf
  user_name : JLeaf
  user_username : JLeaf
deriving DecidableEq, Repr

/-- `tweet.get("user", {}).get(k, d)`: `none` models the `AttributeError`
raised when the `user` key holds a non-object value such as `null`. -/
def userGet (t : RawTweet) (k : String) (d : JLeaf) : Option JLeaf :=
  match jget t "user" (.jobj []) with
  | .jobj fs => some ((lookupKey k fs).getD d)
  | _ => none

/-- `TwitterService._process_tweet_data`: normalize one raw tweet into a
`TweetRecord`.  `none` models the exception raised when an `int(...)`
conversion or a `user` access fails; otherwise every missing count defaults
to `0` and missing `name`/`username` default to `""`, exactly as in the
source dictionary literal. -/
def process_tweet_data (t : RawTweet) : Option TweetRecord :=
  match pyInt (jget t "favorite_count" (.jint 0)),
        pyInt (jget t "retweet_count" (.jint 0)),
        pyInt (jget t "reply_count" (.jint 0)),
        pyInt (jget t "quote_count" (.jint 0)),
        userGet t "follower_count" (.jint 0),
        userGet t "name" (.jstr ""),
        userGet t "username" (.jstr "") with
  | some fav, some rt, some rp, some qt, some uf, some un, some uu =>
      some
        { id := jget t "tweet_id" .jnull
          text := jget t "tweet_text" (jget t "text" (.jstr ""))
          timestamp := jget t "creation_date" .jnull
          favorite_count := fav
          retweet_count := rt
          reply_count := rp
          quote_count := qt
          views := jget t "views" (.jint 0)
          user_followers := uf
          user_name := un
          user_username := uu }
  | _, _, _, _, _, _, _ => none

/-- The `id` field a raw tweet would be normalized to (`tweet.get("tweet_id")`). -/
def rawId (t : RawTweet) : JVal :=
  jget t "tweet_id" .jnull

example :
    process_tweet_data
      [("tweet_id", .jstr "1"), ("tweet_text", .jstr "hi"),
       ("favorite_count", .jstr "3")] =
    some
      { id := .jstr "1", text := .jstr "hi", timestamp := .jnull
        favorite_count := 3, retweet_count := 0, reply_count := 0
        quote_count := 0, views := .jint 0, user_followers := .jint 0
        user_name := .jstr "", user_username := .jstr "" } := by
  decide

example : process_tweet_data [("favorite_count", JVal.jnull)] = none := by
  decide

/-- CPython's `round` to an integer: round-half-to-even (banker's rounding),
here on exact rationals. -/
def roundHalfEven (q : ℚ) : Int :=
  if q - ⌊q⌋ < 1/2 then ⌊q⌋
  else if (1 : ℚ)/2 < q - ⌊q⌋ then ⌊q⌋ + 1
  else if ⌊q⌋ % 2 = 0 then ⌊q⌋ else ⌊q⌋ + 1

/-- Python `round(x, 1)`: round to one decimal place. -/
def pyRound1 (x : ℚ) : ℚ := (roundHalfEven (x * 10) : ℚ) / 10

/-- One upstream HTTP response as the service consumes it: the status code
plus the two fields it reads from the JSON body (`results` defaulting to `[]`
and the optional `continuation_token`). -/
structure ApiResponse where
  status : Nat
  results : List RawTweet
  continuation_token : Option String
deriving DecidableEq, Repr

/-- The list comprehension `[self._process_tweet_data(t) for t in results]`:
all raw tweets are normalized in order, and the first failure raises. -/
def processAll : List RawTweet → Option (List TweetRecord)
  | [] => some []
  | t :: ts =>
      match process_tweet_data t, processAll ts with
      | some r, some rs => some (r :: rs)
      | _, _ => none

/-- Python truthiness of the continuation token: `None` and the empty string
are falsy, so the `while continuation_token and page < max_pages` loop stops
on either. -/
def tokenTruthy : Option String → Bool
  | none => false
  | some s => s ≠ ""

/-- The failure modes of `fetch_tweets`: the re-raised exception of the
initial request (non-200 status, network error, or a normalization error)
and the final `"No tweets found in the response"` exception. -/
inductive FetchError where
  | initialFailure : FetchError
  | noTweetsFound : FetchError
deriving DecidableEq, Repr

/-- The `while continuation_token and page < max_pages` loop of
`TwitterService.fetch_tweets`, driven by an oracle list of continuation
responses consumed in order (`none` models an exception raised by the
request itself, caught by the inner `except`, which `break`s).  Returns the
accumulated records together with the number of continuation requests
issued; running out of oracle entries ends the loop issuing no further
request, which only weakens the request count.  Inside the loop a non-200
status, an empty `results` list, or a normalization failure each `break`
with the records collected so far, exactly as in the source. -/
def fetchLoop : List (Option ApiResponse) → Option String → Nat →
    List TweetRecord → List TweetRecord × Nat
  | [], _, _, acc => (acc, 0)
  | c :: rest, token, page, acc =>
      if tokenTruthy token ∧ page < 5 then
        match c with
        | none => (acc, 1)
        | some resp =>
            if resp.status ≠ 200 then (acc, 1)
            else if resp.results = [] then (acc, 1)
            else
              match processAll resp.results with
              | none => (acc, 1)
              | some rs =>
                  let p := fetchLoop rest resp.continuation_token (page + 1)
                    (acc ++ rs)
                  (p.1, p.2 + 1)
      else (acc, 0)

/-- `TwitterService.fetch_tweets` together with the total number of HTTP
requests issued.  `initial = none` models an exception during the initial
request itself; a non-200 initial status or an initial normalization failure
re-raises (`FetchError.initialFailure`); after the pagination loop an empty
record list raises `"No tweets found in the response"`. -/
def fetch_tweets_run (initial : Option ApiResponse)
    (conts : List (Option ApiResponse)) :
    Except FetchError (List TweetRecord) × Nat :=
  match initial with
  | none => (.error .initialFailure, 1)
  | some resp =>
      if resp.status ≠ 200 then (.error .initialFailure, 1)
      else
        match processAll resp.results with
        | none => (.error .initialFailure, 1)
        | some recs =>
            let p := fetchLoop conts resp.continuation_token 1 recs
            if p.1 = [] then (.error .noTweetsFound, 1 + p.2)
            else (.ok p.1, 1 + p.2)

deriving instance DecidableEq for Except

/-- The value `TwitterService.fetch_tweets` returns (or the exception it
raises) for a given query's upstream responses. -/
def fetch_tweets (initial : Option ApiResponse)
    (conts : List (Option ApiResponse)) : Except FetchError (List TweetRecord) :=
  (fetch_tweets_run initial conts).1

example :
    fetch_tweets (some ⟨200, [[("tweet_id", .jstr "1")]], none⟩) [] =
      .ok [{ id := .jstr "1", text := .jstr "", timestamp := .jnull
             favorite_count := 0, retweet_count := 0, reply_count := 0
             quote_count := 0, views := .jint 0, user_followers := .jint 0
             user_name := .jstr "", user_username := .jstr "" }] := by
  decide

example : fetch_tweets (some ⟨200, [], none⟩) [] = .error .noTweetsFound := by
  decide

example : fetch_tweets (some ⟨404, [[("tweet_id", .jstr "1")]], none⟩) [] =
    .error .initialFailure := by
  decide

/-- A pandas DataFrame as the routes use it: an explicit column list and the
rows as association lists from column name to cell value. -/
structure DF where
  columns : List String
  rows : List (List (String × JVal))
deriving DecidableEq, Repr

/-- One entry of the `languages` list built by `calculate_language_stats`. -/
structure LangEntry where
  language : JVal
  code : JVal
  count : Nat
  percentage : ℚ
deriving DecidableEq, Repr

/-- The `original_lang` column of a DataFrame, one value per row. -/
def langVals (df : DF) : List JVal :=
  df.rows.map fun r => (lookupKey "original_lang" r).getD .jnull

/-- `calculate_language_stats` (`search_routes.py`): group the
`original_lang` column by value (`value_counts`), and emit per distinct value
its display name (`hi` ↦ `Hindi`, `en` ↦ `English`, anything else passes
through), the code, the count, and `round(count / total * 100, 1)` with
`total = len(df)`.  The list is returned in first-occurrence order rather
than `value_counts`' count-descending order; no claim concerns the order.
If the column is absent the result is the empty list. -/
def calculate_language_stats (df : DF) : List LangEntry :=
  if "original_lang" ∈ df.columns then
    (langVals df).dedup.map fun lang =>
      { language := if lang = .jstr "hi" then .jstr "Hindi"
                    else if lang = .jstr "en" then .jstr "English" else lang
        code := lang
        count := (langVals df).count lang
        percentage :=
          pyRound1 (((langVals df).count lang : ℚ) / (df.rows.length : ℚ) * 100) }
  else []

/-- The metadata object `save_tweets_with_sentiment` writes. -/
structure Metadata where
  search_query : String
  timestamp : String
  total_tweets : Nat
  language_stats : List LangEntry
deriving DecidableEq, Repr

/-- The `{metadata, tweets}` envelope written to disk. -/
structure SavedFile where
  metadata : Metadata
  tweets : List (List (String × JVal))
deriving DecidableEq, Repr

/-- The filesystem: paths mapped to the envelope last written there. -/
abbrev FS : Type := List (String × SavedFile)

/-- `open(path, "w")` followed by `json.dump(content, ...)`: the new binding
shadows any previous content at the same path. -/
def fsWrite (path : String) (content : SavedFile) (fs : FS) : FS :=
  (path, content) :: fs

/-- The allow-list of columns `save_tweets_with_sentiment` keeps. -/
def desired_columns : List String :=
  ["id", "text", "cleaned_text", "favorite_count", "retweet_count",
   "reply_count", "sentiment", "sentiment_score", "original_lang"]

/-- `search_query.replace(" ", "_").replace("/", "_").replace("\\", "_")[:30]`:
the three single-character replacements are one character map, and the slice
keeps the first 30 characters. -/
def sanitize_query (q : String) : String :=
  String.mk ((q.data.map fun c =>
    if c = ' ' ∨ c = '/' ∨ c = '\\' then '_' else c).take 30)

/-- `save_tweets_with_sentiment(df, search_query)`: project each row onto the
allow-listed columns that exist in the DataFrame, wrap the records in the
`{metadata, tweets}` envelope (with `total_tweets` the record count and the
language statistics of the full DataFrame), write the envelope to
`data/tweets_<sanitized-query>_<timestamp>.json`, then write the same
envelope to `data/latest_tweets.json`, and return the timestamped filename.
The wall-clock timestamp string is passed in as `ts`. -/
def save_tweets_with_sentiment (df : DF) (search_query : String) (ts : String)
    (fs : FS) : String × FS :=
  let columns_to_save := desired_columns.filter fun c => c ∈ df.columns
  let tweet_records := df.rows.map fun row =>
    columns_to_save.map fun c => (c, (lookupKey c row).getD .jnull)
  let content : SavedFile :=
    { metadata :=
        { search_query := search_query
          timestamp := ts
          total_tweets := tweet_records.length
          language_stats := calculate_language_stats df }
      tweets := tweet_records }
  let filename := "data/tweets_" ++ sanitize_query search_query ++ "_" ++ ts
    ++ ".json"
  (filename, fsWrite "data/latest_tweets.json" content
    (fsWrite filename content fs))

/-- `GET /api/tweets` (`get_latest_tweets` in `search_routes.py`): read
`server/data/latest_tweets.json`; `none` models the `FileNotFoundError`
branch that answers HTTP 404. -/
def get_latest_tweets (fs : FS) : Option SavedFile :=
  lookupKey "server/data/latest_tweets.json" fs

/-- The row dictionary a `TweetRecord` becomes in the DataFrame
`pd.DataFrame(all_tweets_data)` builds. -/
def recordRow (r : TweetRecord) : List (String × JVal) :=
  [("id", r.id), ("text", r.text), ("timestamp", r.timestamp),
   ("favorite_count", .jint r.favorite_count),
   ("retweet_count", .jint r.retweet_count),
   ("reply_count", .jint r.reply_count),
   ("quote_count", .jint r.quote_count),
   ("views", r.views),
   ("user_followers", r.user_followers.toJVal),
   ("user_name", r.user_name.toJVal),
   ("user_username", r.user_username.toJVal)]

/-- `pd.DataFrame(all_tweets_data)`: the columns are the record keys. -/
def recordsToDF (recs : List TweetRecord) : DF :=
  { columns := ["id", "text", "timestamp", "favorite_count", "retweet_count",
                "reply_count", "quote_count", "views", "user_followers",
                "user_name", "user_username"]
    rows := recs.map recordRow }

/-- `POST /api/variable` (`variable` in `search_routes.py`).  The result is
the HTTP status, the filesystem after the request, and whether
`twitter_service.fetch_tweets` was invoked.  `body` is the `searchQuery`
value (`request.json.get("searchQuery", "")` turns a missing key into `""`).
The external cleaner and analyzer are the opaque parameters `clean` and
`analyze`; a `none` from either, like any fetch failure, is caught by the
route's `except` and answered with HTTP 500 before any file is written.  The
response-body preparation (`prepare_tweet_data` and the JSON assembly) does
not touch the filesystem and is elided. -/
def variable_route (body : Option String) (initial : Option ApiResponse)
    (conts : List (Option ApiResponse)) (clean : DF → Option DF)
    (analyze : DF → Option Unit) (ts : String) (fs : FS) :
    Nat × FS × Bool :=
  if body.getD "" = "" then (400, fs, false)
  else
    match fetch_tweets initial conts with
    | .error _ => (500, fs, true)
    | .ok recs =>
        match clean (recordsToDF recs) with
        | none => (500, fs, true)
        | some df =>
            match analyze df with
            | none => (500, fs, true)
            | some _ =>
                (200, (save_tweets_with_sentiment df (body.getD "") ts fs).2,
                 true)

example :
    (calculate_language_stats
      { columns := ["original_lang"],
        rows := [[("original_lang", .jstr "en")],
                 [("original_lang", .jstr "en")]] }).map
      (fun e => (e.language, e.code, e.count)) =
      [(.jstr "English", .jstr "en", 2)] := by
  decide

/-- C9: For the empty record sequence, `calculate_language_stats` returns an
empty language-distribution list — whether or not the `original_lang` column
exists — so the `count / total` division (whose denominator would be zero)
is never evaluated: the `languages` list over which it would be computed has
no entries. -/
theorem claim_C9_empty_rows_no_languages (cols : List String) :
    calculate_language_stats { columns := cols, rows := [] } = [] := by
  unfold calculate_language_stats
  split
  · simp [langVals]
  · rfl

/-- C6: `_process_tweet_data` applies defensive defaulting.  The concrete
input `{"tweet_id":"1","tweet_text":"hi","favorite_count":"3"}` produces
id `"1"`, text `"hi"`, numeric `favorite_count 3`, and the other counts `0`;
and in general, whenever normalization succeeds, a count key absent from the
raw record yields count `0`, and an absent `user` object yields empty-string
`name` and `username`. -/
theorem claim_C6_process_defaults :
    (process_tweet_data
      [("tweet_id", .jstr "1"), ("tweet_text", .jstr "hi"),
       ("favorite_count", .jstr "3")] =
      some { id := .jstr "1", text := .jstr "hi", timestamp := .jnull
             favorite_count := 3, retweet_count := 0, reply_count := 0
             quote_count := 0, views := .jint 0, user_followers := .jint 0
             user_name := .jstr "", user_username := .jstr "" }) ∧
    (∀ (t : RawTweet) (r : TweetRecord), process_tweet_data t = some r →
      (lookupKey "favorite_count" t = none → r.favorite_count = 0) ∧
      (lookupKey "retweet_count" t = none → r.retweet_count = 0) ∧
      (lookupKey "reply_count" t = none → r.reply_count = 0) ∧
      (lookupKey "quote_count" t = none → r.quote_count = 0) ∧
      (lookupKey "user" t = none →
        r.user_name = .jstr "" ∧ r.user_username = .jstr "")) := by
  constructor
  · decide
  · intro t r h
    unfold process_tweet_data at h
    split at h
    case _ fav rt rp qt uf un uu hfav hrt hrp hqt huf hun huu =>
      rw [Option.some.injEq] at h
      subst h
      refine ⟨?_, ?_, ?_, ?_, ?_⟩
      · intro habs
        rw [show jget t "favorite_count" (.jint 0) = .jint 0 by
              simp [jget, habs]] at hfav
        simpa [pyInt] using hfav.symm
      · intro habs
        rw [show jget t "retweet_count" (.jint 0) = .jint 0 by
              simp [jget, habs]] at hrt
        simpa [pyInt] using hrt.symm
      · intro habs
        rw [show jget t "reply_count" (.jint 0) = .jint 0 by
              simp [jget, habs]] at hrp
        simpa [pyInt] using hrp.symm
      · intro habs
        rw [show jget t "quote_count" (.jint 0) = .jint 0 by
              simp [jget, habs]] at hqt
        simpa [pyInt] using hqt.symm
      · intro habs
        have hu : jget t "user" (.jobj []) = .jobj [] := by simp [jget, habs]
        unfold userGet at hun huu
        rw [hu] at hun huu
        constructor
        · simpa [lookupKey] using hun.symm
        · simpa [lookupKey] using huu.symm
    case _ => exact absurd h (by simp)

/-- Witness for C6: the general defaulting clauses applied at the concrete
raw record `{"tweet_id":"9"}`, where every count key and the user object are
absent. -/
theorem claim_C6_witness :
    process_tweet_data [("tweet_id", JVal.jstr "9")] =
      some { id := .jstr "9", text := .jstr "", timestamp := .jnull
             favorite_count := 0, retweet_count := 0, reply_count := 0
             quote_count := 0, views := .jint 0, user_followers := .jint 0
             user_name := .jstr "", user_username := .jstr "" } ∧
    ({ id := .jstr "9", text := .jstr "", timestamp := .jnull
       favorite_count := 0, retweet_count := 0, reply_count := 0
       quote_count := 0, views := .jint 0, user_followers := .jint 0
       user_name := .jstr "", user_username := .jstr "" } : TweetRecord).favorite_count = 0 ∧
    ({ id := .jstr "9", text := .jstr "", timestamp := .jnull
       favorite_count := 0, retweet_count := 0, reply_count := 0
       quote_count := 0, views := .jint 0, user_followers := .jint 0
       user_name := .jstr "", user_username := .jstr "" } : TweetRecord).user_name = .jstr "" := by
  refine ⟨by decide, ?_, ?_⟩
  · exact (claim_C6_process_defaults.2 [("tweet_id", JVal.jstr "9")] _
      (by decide)).1 (by decide)
  · exact ((claim_C6_process_defaults.2 [("tweet_id", JVal.jstr "9")] _
      (by decide)).2.2.2.2 (by decide)).1

/-- C10: the count defaulting of `_process_tweet_data` applies only when the
key is absent: a `favorite_count` present as `null` or as the non-numeric
string `"abc"` makes normalization raise (`none`) rather than default, while
a present convertible value is used as is — normalization is not total. -/
theorem claim_C10_process_raises_on_bad_count :
    process_tweet_data
      [("tweet_id", .jstr "1"), ("favorite_count", JVal.jnull)] = none ∧
    process_tweet_data
      [("tweet_id", .jstr "1"), ("favorite_count", .jstr "abc")] = none ∧
    (process_tweet_data
      [("tweet_id", .jstr "1"), ("favorite_count", .jint 7)]).map
        TweetRecord.favorite_count = some 7 := by
  decide

/-- A continuation request that fails within the loop: either the request
raises (`none`) or it answers with a non-200 status. -/
def contFails : Option ApiResponse → Bool
  | none => true
  | some r => r.status ≠ 200

/-- The loop only ever appends to the accumulator. -/
theorem fetchLoop_acc_prefix (conts : List (Option ApiResponse)) :
    ∀ token page acc, ∃ extra, (fetchLoop conts token page acc).1 = acc ++ extra := by
  induction conts with
  | nil =>
      intro token page acc
      exact ⟨[], by simp [fetchLoop]⟩
  | cons c rest ih =>
      intro token page acc
      simp only [fetchLoop]
      split
      · split
        · exact ⟨[], by simp⟩
        next resp =>
          split
          · exact ⟨[], by simp⟩
          · split
            · exact ⟨[], by simp⟩
            · split
              · exact ⟨[], by simp⟩
              next rs heq =>
                obtain ⟨e, he⟩ := ih resp.continuation_token (page + 1) (acc ++ rs)
                exact ⟨rs ++ e, by simp [he]⟩
      · exact ⟨[], by simp⟩

/-- A failing continuation response ends the loop: the oracle entries after
it are never consumed, and the records accumulated before it are returned. -/
theorem fetchLoop_append_fail (bad : Option ApiResponse)
    (hbad : contFails bad = true) (rest : List (Option ApiResponse)) :
    ∀ (good : List (Option ApiResponse)) (token : Option String) (page : Nat)
      (acc : List TweetRecord),
      (fetchLoop (good ++ bad :: rest) token page acc).1 =
        (fetchLoop good token page acc).1 := by
  intro good
  induction good with
  | nil =>
      intro token page acc
      simp only [List.nil_append, fetchLoop]
      split
      · cases bad with
        | none => rfl
        | some r =>
            have hr : r.status ≠ 200 := by
              simpa [contFails] using hbad
            simp [hr]
      · rfl
  | cons c good' ih =>
      intro token page acc
      simp only [List.cons_append, fetchLoop]
      split
      · split
        · rfl
        next resp =>
          split
          · rfl
          · split
            · rfl
            · split
              · rfl
              next rs heq =>
                simpa using ih resp.continuation_token (page + 1) (acc ++ rs)
      · rfl

/-- The loop issues at most `5 - page` continuation requests. -/
theorem fetchLoop_requests_le (conts : List (Option ApiResponse)) :
    ∀ token page acc, (fetchLoop conts token page acc).2 ≤ 5 - page := by
  induction conts with
  | nil => intro _ page _; simp [fetchLoop]
  | cons c rest ih =>
      intro token page acc
      simp only [fetchLoop]
      split
      next hg =>
        have hp : page < 5 := hg.2
        split
        · simp; omega
        next resp =>
          split
          · simp; omega
          · split
            · simp; omega
            · split
              · simp; omega
              next rs heq =>
                have hrec := ih resp.continuation_token (page + 1) (acc ++ rs)
                simp; omega
      · simp

/-- The record built from a raw tweet carries that tweet's `tweet_id`. -/
theorem process_tweet_data_id (t : RawTweet) (r : TweetRecord)
    (h : process_tweet_data t = some r) : r.id = rawId t := by
  unfold process_tweet_data at h
  split at h
  · rw [Option.some.injEq] at h; subst h; rfl
  · exact absurd h (by simp)

/-- Successful normalization of a page preserves the raw ids in order. -/
theorem processAll_ids (ts : List RawTweet) :
    ∀ rs, processAll ts = some rs → rs.map TweetRecord.id = ts.map rawId := by
  induction ts with
  | nil =>
      intro rs h
      simp only [processAll, Option.some.injEq] at h
      subst h; rfl
  | cons t ts ih =>
      intro rs h
      unfold processAll at h
      split at h
      next r rs' h1 h2 =>
        rw [Option.some.injEq] at h
        subst h
        simp [process_tweet_data_id t r h1, ih rs' h2]
      next => exact absurd h (by simp)

/-- The ids of all raw tweets an oracle could contribute, page by page. -/
def oracleIds : List (Option ApiResponse) → List JVal
  | [] => []
  | none :: rest => oracleIds rest
  | some r :: rest => r.results.map rawId ++ oracleIds rest

/-- The ids the loop returns form a sublist of the accumulator's ids
followed by the oracle's raw ids. -/
theorem fetchLoop_ids_sublist (conts : List (Option ApiResponse)) :
    ∀ token page acc,
      ((fetchLoop conts token page acc).1.map TweetRecord.id).Sublist
        (acc.map TweetRecord.id ++ oracleIds conts) := by
  induction conts with
  | nil =>
      intro _ _ acc
      simp [fetchLoop, oracleIds]
  | cons c rest ih =>
      intro token page acc
      simp only [fetchLoop]
      split
      · split
        · simp [oracleIds]
        next resp =>
          split
          · exact List.sublist_append_left _ _
          · split
            · exact List.sublist_append_left _ _
            · split
              · exact List.sublist_append_left _ _
              next rs heq =>
                have h1 := ih resp.continuation_token (page + 1) (acc ++ rs)
                rw [List.map_append, processAll_ids resp.results rs heq] at h1
                simpa [oracleIds, List.append_assoc] using h1
      · exact List.sublist_append_left _ _

/-- A raw tweet carrying only `tweet_id: "1"`, used as concrete input. -/
def sampleRaw : RawTweet := [("tweet_id", JVal.jstr "1")]

/-- A raw tweet carrying only `tweet_id: "2"`, used as concrete input. -/
def sampleRaw2 : RawTweet := [("tweet_id", JVal.jstr "2")]

/-- The record `sampleRaw` normalizes to. -/
def sampleRec : TweetRecord :=
  { id := .jstr "1", text := .jstr "", timestamp := .jnull
    favorite_count := 0, retweet_count := 0, reply_count := 0
    quote_count := 0, views := .jint 0, user_followers := .jint 0
    user_name := .jstr "", user_username := .jstr "" }

/-- The record `sampleRaw2` normalizes to. -/
def sampleRec2 : TweetRecord :=
  { id := .jstr "2", text := .jstr "", timestamp := .jnull
    favorite_count := 0, retweet_count := 0, reply_count := 0
    quote_count := 0, views := .jint 0, user_followers := .jint 0
    user_name := .jstr "", user_username := .jstr "" }

/-- A 200 response with one result that carries a continuation token. -/
def sampleResp : ApiResponse := ⟨200, [sampleRaw], some "t"⟩

/-- C3: if the initial request succeeds with at least one record and some
continuation request fails (exception or non-200), `fetch_tweets` stops
paginating at the failure and returns (`Except.ok`, so no exception escapes)
exactly the records collected from the pages before the failure. -/
theorem claim_C3_partial_success (resp : ApiResponse) (recs : List TweetRecord)
    (good : List (Option ApiResponse)) (bad : Option ApiResponse)
    (rest : List (Option ApiResponse))
    (h200 : resp.status = 200) (hproc : processAll resp.results = some recs)
    (hne : recs ≠ []) (hbad : contFails bad = true) :
    fetch_tweets (some resp) (good ++ bad :: rest) =
      .ok ((fetchLoop good resp.continuation_token 1 recs).1) := by
  have hs : ¬resp.status ≠ 200 := by simp [h200]
  have h3 : (fetchLoop (good ++ bad :: rest) resp.continuation_token 1 recs).1
      = (fetchLoop good resp.continuation_token 1 recs).1 :=
    fetchLoop_append_fail bad hbad rest good resp.continuation_token 1 recs
  obtain ⟨e, he⟩ := fetchLoop_acc_prefix good resp.continuation_token 1 recs
  have hnonempty :
      (fetchLoop good resp.continuation_token 1 recs).1 ≠ [] := by
    rw [he]; simp [hne]
  unfold fetch_tweets fetch_tweets_run
  simp [hs, hproc, h3, hnonempty]

/-- Witness for C3: a 200 initial page with one record followed by a raising
continuation request still yields `ok` with that record. -/
theorem claim_C3_witness :
    (⟨200, [sampleRaw], some "tok"⟩ : ApiResponse).status = 200 ∧
    processAll [sampleRaw] = some [sampleRec] ∧
    [sampleRec] ≠ ([] : List TweetRecord) ∧
    contFails none = true ∧
    fetch_tweets (some ⟨200, [sampleRaw], some "tok"⟩) ([] ++ none :: []) =
      .ok ((fetchLoop [] (some "tok") 1 [sampleRec]).1) := by
  refine ⟨rfl, by decide, by decide, rfl, ?_⟩
  exact claim_C3_partial_success ⟨200, [sampleRaw], some "tok"⟩ [sampleRec]
    [] none [] rfl (by decide) (by decide) rfl

/-- A response that, per the claim's hypothesis, carries a (truthy)
continuation token and a non-empty `results` list. -/
def contOk : Option ApiResponse → Bool
  | none => false
  | some r => (r.results ≠ ([] : List RawTweet)) && tokenTruthy r.continuation_token

/-- C4: when every upstream response carries a continuation token and
non-empty results, `fetch_tweets` issues at most 5 HTTP requests in total:
the initial request plus at most `max_pages - 1 = 4` continuation requests
(the loop runs for `page = 1, 2, 3, 4`). -/
theorem claim_C4_request_cap (initial : Option ApiResponse)
    (conts : List (Option ApiResponse))
    (hinit : contOk initial = true)
    (hconts : ∀ c ∈ conts, contOk c = true) :
    (fetch_tweets_run initial conts).2 ≤ 5 := by
  cases initial with
  | none => simp [fetch_tweets_run]
  | some resp =>
      by_cases hs : resp.status ≠ 200
      · simp [fetch_tweets_run, hs]
      · cases hp : processAll resp.results with
        | none => simp [fetch_tweets_run, hs, hp]
        | some recs =>
            have hloop := fetchLoop_requests_le conts resp.continuation_token 1 recs
            unfold fetch_tweets_run
            by_cases hnil : (fetchLoop conts resp.continuation_token 1 recs).1 = []
            · simp [hs, hp, hnil]; omega
            · simp [hs, hp, hnil]; omega

/-- Witness for C4: one token-carrying initial page and one token-carrying
continuation page issue at most 5 requests. -/
theorem claim_C4_witness :
    contOk (some sampleResp) = true ∧
    ([some sampleResp].all contOk) = true ∧
    (fetch_tweets_run (some sampleResp) [some sampleResp]).2 ≤ 5 := by
  refine ⟨by decide, by decide, ?_⟩
  exact claim_C4_request_cap (some sampleResp) [some sampleResp]
    (by decide) (by decide)

/-- C5: given a successful initial request, `fetch_tweets` raises the
`"No tweets found in the response"` error exactly when the pagination loop
finishes with zero collected records. -/
theorem claim_C5_empty_raises (resp : ApiResponse) (recs : List TweetRecord)
    (conts : List (Option ApiResponse))
    (h200 : resp.status = 200) (hproc : processAll resp.results = some recs) :
    (fetch_tweets (some resp) conts = .error .noTweetsFound ↔
      (fetchLoop conts resp.continuation_token 1 recs).1 = []) := by
  have hs : ¬resp.status ≠ 200 := by simp [h200]
  unfold fetch_tweets fetch_tweets_run
  by_cases hnil : (fetchLoop conts resp.continuation_token 1 recs).1 = []
  · simp [hs, hproc, hnil]
  · simp [hs, hproc, hnil]

/-- Witness for C5: a 200 response with no results and no continuation
raises the empty-result error, and the loop indeed collected nothing. -/
theorem claim_C5_witness :
    (⟨200, [], none⟩ : ApiResponse).status = 200 ∧
    processAll ([] : List RawTweet) = some [] ∧
    (fetch_tweets (some ⟨200, [], none⟩) [] = .error .noTweetsFound ↔
      (fetchLoop [] none 1 []).1 = []) :=
  ⟨rfl, rfl, claim_C5_empty_raises ⟨200, [], none⟩ [] [] rfl rfl⟩

/-- C2 fails on the code: `fetch_tweets` performs no deduplication.  When
the same raw tweet (`tweet_id: "1"`) appears on the initial page and again
on a continuation page, the returned sequence contains two records with the
same id. -/
theorem claim_C2_counterexample :
    fetch_tweets (some ⟨200, [sampleRaw], some "c"⟩)
        [some ⟨200, [sampleRaw], none⟩] =
      .ok [sampleRec, sampleRec] ∧
    ¬ ([sampleRec, sampleRec].map TweetRecord.id).Nodup := by
  exact ⟨by decide, by decide⟩

/-- C2 amended: `fetch_tweets` keeps every record of every consumed page
without deduplicating, so the returned ids are pairwise distinct exactly
when the upstream pages themselves never repeat an id: if the raw
`tweet_id`s across the initial page and all continuation pages are pairwise
distinct, then the ids of the returned records are pairwise distinct. -/
theorem claim_C2_nodup_of_upstream_nodup (resp : ApiResponse)
    (conts : List (Option ApiResponse)) (l : List TweetRecord)
    (hok : fetch_tweets (some resp) conts = .ok l)
    (hids : ((resp.results.map rawId) ++ oracleIds conts).Nodup) :
    (l.map TweetRecord.id).Nodup := by
  unfold fetch_tweets fetch_tweets_run at hok
  by_cases hs : resp.status ≠ 200
  · simp [hs] at hok
  · cases hp : processAll resp.results with
    | none => simp [hs, hp] at hok
    | some recs =>
        by_cases hnil : (fetchLoop conts resp.continuation_token 1 recs).1 = []
        · simp [hs, hp, hnil] at hok
        · simp [hs, hp, hnil] at hok
          have hsub := fetchLoop_ids_sublist conts resp.continuation_token 1 recs
          rw [processAll_ids resp.results recs hp] at hsub
          rw [← hok]
          exact List.Nodup.sublist hsub hids

/-- Witness for C2 (amended): ids `"1"` then `"2"` across two pages are
pairwise distinct upstream, and the returned ids are pairwise distinct. -/
theorem claim_C2_nodup_witness :
    fetch_tweets (some ⟨200, [sampleRaw], some "c"⟩)
        [some ⟨200, [sampleRaw2], none⟩] = .ok [sampleRec, sampleRec2] ∧
    (([sampleRaw].map rawId) ++
      oracleIds [some ⟨200, [sampleRaw2], none⟩]).Nodup ∧
    ([sampleRec, sampleRec2].map TweetRecord.id).Nodup := by
  refine ⟨by decide, by decide, ?_⟩
  exact claim_C2_nodup_of_upstream_nodup ⟨200, [sampleRaw], some "c"⟩
    [some ⟨200, [sampleRaw2], none⟩] [sampleRec, sampleRec2]
    (by decide) (by decide)

/-- Banker's rounding moves a rational by at most one half. -/
theorem abs_roundHalfEven_sub (q : ℚ) : |(roundHalfEven q : ℚ) - q| ≤ 1/2 := by
  unfold roundHalfEven
  have h0 : ((⌊q⌋ : ℚ)) ≤ q := Int.floor_le q
  have h1 : q < ⌊q⌋ + 1 := Int.lt_floor_add_one q
  split_ifs with hA hB hC
  all_goals rw [abs_le]; push_cast; constructor <;> linarith

/-- Rounding to one decimal moves a rational by at most `1/20 = 0.05`. -/
theorem abs_pyRound1_sub (x : ℚ) : |pyRound1 x - x| ≤ 1/20 := by
  have h := abs_roundHalfEven_sub (x * 10)
  rw [abs_le] at h ⊢
  unfold pyRound1
  constructor <;> nlinarith [h.1, h.2]

/-- Sum of an indicator over a list counts the occurrences. -/
theorem sum_map_ite_one {α : Type} [DecidableEq α] (L : List α) (a : α) :
    (L.map fun v => if a = v then 1 else 0).sum = L.count a := by
  induction L with
  | nil => simp
  | cons b L ih =>
      rcases eq_or_ne a b with rfl | h
      · simp [List.count_cons, ih]
        omega
      · simp [List.count_cons, ih, h, Ne.symm h]

/-- Pointwise sums of natural-valued maps split. -/
theorem sum_map_add_nat {α : Type} (L : List α) (f g : α → Nat) :
    (L.map fun v => f v + g v).sum = (L.map f).sum + (L.map g).sum := by
  induction L with
  | nil => simp
  | cons b L ih => simp [ih]; omega

/-- The multiplicities of the distinct values of a list sum to its length
(this is what makes `value_counts` percentages sum to 100 exactly before
rounding). -/
theorem sum_counts_dedup {α : Type} [DecidableEq α] (L : List α) :
    (L.dedup.map fun v => L.count v).sum = L.length := by
  induction L with
  | nil => simp
  | cons a L ih =>
      by_cases h : a ∈ L
      · rw [List.dedup_cons_of_mem h]
        calc (L.dedup.map fun v => (a :: L).count v).sum
            = (L.dedup.map fun v => L.count v + if a = v then 1 else 0).sum := by
              simp [List.count_cons]
          _ = (L.dedup.map fun v => L.count v).sum
              + (L.dedup.map fun v => if a = v then 1 else 0).sum :=
              sum_map_add_nat _ _ _
          _ = L.length + L.dedup.count a := by rw [ih, sum_map_ite_one]
          _ = L.length + 1 := by rw [List.count_dedup]; simp [h]
          _ = (a :: L).length := by simp
      · rw [List.dedup_cons_of_not_mem h]
        simp only [List.map_cons, List.sum_cons]
        have hca : (a :: L).count a = L.count a + 1 := by simp
        have hmap : (L.dedup.map fun v => (a :: L).count v)
            = (L.dedup.map fun v => L.count v) := by
          apply List.map_congr_left
          intro v hv
          have hvL : v ∈ L := List.mem_dedup.mp hv
          have hne : ¬(a = v) := fun e => h (e ▸ hvL)
          simp [List.count_cons, hne]
        rw [hca, hmap, ih, List.count_eq_zero_of_not_mem h, List.length_cons]
        omega

/-- Rational version of `sum_counts_dedup`. -/
theorem sum_counts_dedup_q {α : Type} [DecidableEq α] (L : List α) :
    (L.dedup.map fun v => ((L.count v : ℚ))).sum = (L.length : ℚ) := by
  have hcomp : (L.dedup.map fun v => ((L.count v : ℚ)))
      = (L.dedup.map fun v => L.count v).map (fun n : ℕ => (n : ℚ)) := by
    rw [List.map_map]; rfl
  rw [hcomp, ← Nat.cast_list_sum, sum_counts_dedup]

/-- A list sum moves by at most the length times a uniform pointwise bound. -/
theorem abs_list_sum_sub_le {α : Type} (L : List α) (f g : α → ℚ) (c : ℚ)
    (h : ∀ a ∈ L, |f a - g a| ≤ c) :
    |(L.map f).sum - (L.map g).sum| ≤ L.length * c := by
  induction L with
  | nil => simp
  | cons a L ih =>
      simp only [List.map_cons, List.sum_cons, List.length_cons]
      have h1 : |f a - g a| ≤ c := h a (List.mem_cons_self a L)
      have h2 := ih fun b hb => h b (List.mem_cons_of_mem a hb)
      have harr : f a + (L.map f).sum - (g a + (L.map g).sum)
          = (f a - g a) + ((L.map f).sum - (L.map g).sum) := by ring
      rw [harr]
      calc |(f a - g a) + ((L.map f).sum - (L.map g).sum)|
          ≤ |f a - g a| + |(L.map f).sum - (L.map g).sum| := abs_add _ _
        _ ≤ c + (L.length : ℚ) * c := add_le_add h1 h2
        _ = ((L.length : ℚ) + 1) * c := by ring
        _ = (((L.length + 1 : ℕ)) : ℚ) * c := by push_cast; ring

/-- The per-language rounded percentages of `calculate_language_stats`. -/
theorem cls_percentages (df : DF) (hcol : "original_lang" ∈ df.columns) :
    (calculate_language_stats df).map LangEntry.percentage =
      (langVals df).dedup.map fun v =>
        pyRound1 (((langVals df).count v : ℚ) / (df.rows.length : ℚ) * 100) := by
  unfold calculate_language_stats
  rw [if_pos hcol, List.map_map]
  rfl

/-- One language entry per distinct `original_lang` value. -/
theorem cls_length (df : DF) (hcol : "original_lang" ∈ df.columns) :
    (calculate_language_stats df).length = (langVals df).dedup.length := by
  unfold calculate_language_stats
  rw [if_pos hcol]
  simp

/-- C7 amended: for a non-empty record sequence with the `original_lang`
column, the sum of the rounded percentages differs from 100 by at most
`0.05` per distinct language (each `round(·, 1)` moves its summand by at
most `0.05` and the exact percentages sum to exactly 100); the fixed `0.1`
tolerance of the claim holds only when there are at most two distinct
language values. -/
theorem claim_C7_percentage_sum_bound (df : DF)
    (hcol : "original_lang" ∈ df.columns) (hne : df.rows ≠ []) :
    |((calculate_language_stats df).map LangEntry.percentage).sum - 100| ≤
      ((calculate_language_stats df).length : ℚ) / 20 := by
  rw [cls_percentages df hcol, cls_length df hcol]
  have hT0 : (0 : ℚ) < (df.rows.length : ℚ) := by
    have : 0 < df.rows.length := List.length_pos.mpr hne
    exact_mod_cast this
  have hlenV : (langVals df).length = df.rows.length := by simp [langVals]
  have hexact :
      ((langVals df).dedup.map fun v =>
        ((langVals df).count v : ℚ) / (df.rows.length : ℚ) * 100).sum = 100 := by
    have hfactor :
        ((langVals df).dedup.map fun v =>
          ((langVals df).count v : ℚ) / (df.rows.length : ℚ) * 100)
        = (langVals df).dedup.map fun v =>
          ((langVals df).count v : ℚ) * (100 / (df.rows.length : ℚ)) := by
      apply List.map_congr_left
      intro v _
      ring
    rw [hfactor, List.sum_map_mul_right, sum_counts_dedup_q, hlenV]
    field_simp
  have hbound := abs_list_sum_sub_le (langVals df).dedup
    (fun v => pyRound1 (((langVals df).count v : ℚ) / (df.rows.length : ℚ) * 100))
    (fun v => ((langVals df).count v : ℚ) / (df.rows.length : ℚ) * 100)
    (1/20) (fun a _ => abs_pyRound1_sub _)
  rw [hexact] at hbound
  calc |((langVals df).dedup.map fun v =>
          pyRound1 (((langVals df).count v : ℚ) / (df.rows.length : ℚ) * 100)).sum
        - 100| ≤ ((langVals df).dedup.length : ℚ) * (1/20) := hbound
    _ = ((langVals df).dedup.length : ℚ) / 20 := by ring

/-- A DataFrame of two English-language rows, used as concrete input. -/
def df2en : DF :=
  { columns := ["original_lang"]
    rows := [[("original_lang", JVal.jstr "en")],
             [("original_lang", JVal.jstr "en")]] }

/-- Witness for C7 (amended): the two-row English DataFrame satisfies the
hypotheses, and its rounded percentage sum is within `k/20` of 100. -/
theorem claim_C7_witness :
    ("original_lang" ∈ df2en.columns) ∧ df2en.rows ≠ [] ∧
    |((calculate_language_stats df2en).map LangEntry.percentage).sum - 100| ≤
      ((calculate_language_stats df2en).length : ℚ) / 20 := by
  refine ⟨by decide, by decide, ?_⟩
  exact claim_C7_percentage_sum_bound df2en (by decide) (by decide)

/-- Six rows with six distinct `original_lang` values. -/
def df6 : DF :=
  { columns := ["original_lang"]
    rows := [[("original_lang", JVal.jstr "l1")],
             [("original_lang", JVal.jstr "l2")],
             [("original_lang", JVal.jstr "l3")],
             [("original_lang", JVal.jstr "l4")],
             [("original_lang", JVal.jstr "l5")],
             [("original_lang", JVal.jstr "l6")]] }

/-- C7 fails as stated: with six records of six distinct languages each
percentage is `round(100/6, 1) = 16.7`, so the percentages sum to `100.2`,
which is `0.2` away from 100 — more than the claimed `0.1` tolerance. -/
theorem claim_C7_counterexample :
    ¬ (|((calculate_language_stats df6).map LangEntry.percentage).sum - 100| ≤
        1/10) := by
  rw [cls_percentages df6 (by decide)]
  have hv : (langVals df6).dedup =
      [JVal.jstr "l1", JVal.jstr "l2", JVal.jstr "l3",
       JVal.jstr "l4", JVal.jstr "l5", JVal.jstr "l6"] := by decide
  rw [hv]
  simp only [List.map_cons, List.map_nil, List.sum_cons, List.sum_nil]
  have h1 : (langVals df6).count (JVal.jstr "l1") = 1 := by decide
  have h2 : (langVals df6).count (JVal.jstr "l2") = 1 := by decide
  have h3 : (langVals df6).count (JVal.jstr "l3") = 1 := by decide
  have h4 : (langVals df6).count (JVal.jstr "l4") = 1 := by decide
  have h5 : (langVals df6).count (JVal.jstr "l5") = 1 := by decide
  have h6 : (langVals df6).count (JVal.jstr "l6") = 1 := by decide
  have hlen : df6.rows.length = 6 := by decide
  rw [h1, h2, h3, h4, h5, h6, hlen]
  have hfloor : (⌊(500 : ℚ)/3⌋ : ℤ) = 166 := by norm_num [Int.floor_eq_iff]
  have hround : roundHalfEven ((500 : ℚ)/3) = 167 := by
    unfold roundHalfEven
    rw [hfloor]
    norm_num
  have hp : pyRound1 (((1 : ℕ) : ℚ) / ((6 : ℕ) : ℚ) * 100) = 167/10 := by
    unfold pyRound1
    rw [show (((1 : ℕ) : ℚ) / ((6 : ℕ) : ℚ) * 100) * 10 = 500/3 by
          push_cast; norm_num,
        hround]
    norm_num
  rw [hp]
  intro habs
  rw [show ((167 : ℚ)/10 + (167/10 + (167/10 + (167/10 + (167/10 +
        (167/10 + 0))))) - 100) = 1/5 by norm_num] at habs
  rw [abs_of_nonneg (by norm_num : (0 : ℚ) ≤ 1/5)] at habs
  norm_num at habs

/-- C8: a missing or empty `searchQuery` makes `POST /api/variable` answer
HTTP 400 before anything else happens: `fetch_tweets` is not invoked and the
filesystem (both the timestamped tweets files and the latest file) is
unchanged. -/
theorem claim_C8_empty_query_400 (body : Option String)
    (initial : Option ApiResponse) (conts : List (Option ApiResponse))
    (clean : DF → Option DF) (analyze : DF → Option Unit) (ts : String)
    (fs : FS) (h : body = none ∨ body = some "") :
    variable_route body initial conts clean analyze ts fs = (400, fs, false) := by
  rcases h with rfl | rfl
  · simp [variable_route]
  · simp [variable_route]

/-- Witness for C8: a request whose `searchQuery` is the empty string. -/
theorem claim_C8_witness :
    ((some "" : Option String) = none ∨ (some "" : Option String) = some "") ∧
    variable_route (some "") none [] (fun d => some d) (fun _ => some ()) "t"
      [] = (400, [], false) := by
  refine ⟨Or.inr rfl, ?_⟩
  exact claim_C8_empty_query_400 (some "") none [] (fun d => some d)
    (fun _ => some ()) "t" [] (Or.inr rfl)

/-- The timestamped tweets filename never collides with the path
`get_latest_tweets` reads: it starts with `data/tweets_`, not `server/`. -/
theorem filename_ne_latest_path (sq ts : String) :
    ("data/tweets_" ++ sq ++ "_" ++ ts ++ ".json") ≠
      "server/data/latest_tweets.json" := by
  obtain ⟨l1⟩ := sq
  obtain ⟨l2⟩ := ts
  intro h
  have h2 := congrArg String.data h
  simp [String.data] at h2

/-- C1 names a genuine bug: `save_tweets_with_sentiment` writes the latest
envelope to `data/latest_tweets.json`, but `GET /api/tweets` reads
`server/data/latest_tweets.json` (the directory the module creates at import
time).  On any filesystem where the `server/data` path is absent, a save —
which does produce the correct envelope, with `total_tweets` equal to the
input record count, under `data/latest_tweets.json` — is followed by a
`get_latest` that finds nothing and answers 404 instead of the saved
`SearchResult`. -/
theorem claim_C1_latest_path_mismatch (df : DF) (q ts : String) (fs : FS)
    (h : lookupKey "server/data/latest_tweets.json" fs = none) :
    get_latest_tweets ((save_tweets_with_sentiment df q ts fs).2) = none ∧
    (lookupKey "data/latest_tweets.json"
        ((save_tweets_with_sentiment df q ts fs).2)).map
      (fun c => c.metadata.total_tweets) = some df.rows.length := by
  unfold save_tweets_with_sentiment get_latest_tweets fsWrite
  refine ⟨?_, ?_⟩
  · simp [lookupKey, filename_ne_latest_path, h]
  · simp [lookupKey]

/-- Witness for C1: saving two records over the empty filesystem leaves
`get_latest_tweets` empty-handed while `data/latest_tweets.json` holds the
two-record envelope. -/
theorem claim_C1_witness :
    lookupKey "server/data/latest_tweets.json" ([] : FS) = none ∧
    get_latest_tweets
      ((save_tweets_with_sentiment df2en "hello world" "2024-01-01_00-00-00"
        []).2) = none ∧
    (lookupKey "data/latest_tweets.json"
        ((save_tweets_with_sentiment df2en "hello world" "2024-01-01_00-00-00"
          []).2)).map (fun c => c.metadata.total_tweets) =
      some df2en.rows.length := by
  have h := claim_C1_latest_path_mismatch df2en "hello world"
    "2024-01-01_00-00-00" [] rfl
  exact ⟨rfl, h.1, h.2⟩
